import Mathlib

/-
Verification development for the Interaction Consistency Engine of the
Capsule repository (backend/src/services/vlogService.js).

The service operates on MongoDB documents; the embedding below models the
slice of state each operation touches, translated directly from the
source.  Counters are modelled as `Int` because the store's `$inc`
primitive can drive a numeric field below zero unless explicitly clamped.
-/

namespace Capsule

namespace Reaction

/-- State of a single `(vlog, user)` pair together with the vlog's two
reaction counters: whether a `Like` document of type `like` (resp.
`dislike`) exists for the pair, and the vlog's `likeCount` /
`dislikeCount` fields. -/
structure PairState where
  hasLike : Bool
  hasDislike : Bool
  likeCount : Int
  dislikeCount : Int
deriving Repr, DecidableEq

/-- The object returned by `toggleLike` / `toggleDislike`:
`{likeCount, dislikeCount, isLiked, isDisliked}`. -/
structure ToggleResult where
  likeCount : Int
  dislikeCount : Int
  isLiked : Bool
  isDisliked : Bool
deriving Repr, DecidableEq

/-- Translation of `toggleLike` (vlogService.js lines 73-144), restricted
to an existing vlog: if a like edge exists, delete it and decrement
`likeCount`; otherwise delete a dislike edge if present (decrementing
`dislikeCount`), create the like edge and increment `likeCount`.  The
returned counters are the post-commit re-read (`Vlog.findById` after
`commitTransaction`), which in this sequential model is the final state;
`isLiked` / `isDisliked` are the local booleans computed in the
transaction body. -/
def toggleLike (s : PairState) : PairState × ToggleResult :=
  if s.hasLike then
    let s2 : PairState :=
      { s with hasLike := false, likeCount := s.likeCount - 1 }
    (s2, ⟨s2.likeCount, s2.dislikeCount, false, false⟩)
  else
    let s1 : PairState :=
      if s.hasDislike then
        { s with hasDislike := false, dislikeCount := s.dislikeCount - 1 }
      else s
    let s2 : PairState :=
      { s1 with hasLike := true, likeCount := s1.likeCount + 1 }
    (s2, ⟨s2.likeCount, s2.dislikeCount, true, false⟩)

/-- Translation of `toggleDislike` (vlogService.js lines 149-220),
symmetric to `toggleLike` with like and dislike swapped. -/
def toggleDislike (s : PairState) : PairState × ToggleResult :=
  if s.hasDislike then
    let s2 : PairState :=
      { s with hasDislike := false, dislikeCount := s.dislikeCount - 1 }
    (s2, ⟨s2.likeCount, s2.dislikeCount, false, false⟩)
  else
    let s1 : PairState :=
      if s.hasLike then
        { s with hasLike := false, likeCount := s.likeCount - 1 }
      else s
    let s2 : PairState :=
      { s1 with hasDislike := true, dislikeCount := s1.dislikeCount + 1 }
    (s2, ⟨s2.likeCount, s2.dislikeCount, false, true⟩)

/-- One toggle call by the user, either `toggleLike` or `toggleDislike`. -/
inductive TOp where
  | like
  | dislike
deriving Repr, DecidableEq

/-- State reached after one toggle call. -/
def applyT : TOp → PairState → PairState
  | TOp.like, s => (toggleLike s).1
  | TOp.dislike, s => (toggleDislike s).1

/-- State reached after a sequence of toggle calls, applied left to
right. -/
def runT : List TOp → PairState → PairState
  | [], s => s
  | op :: rest, s => runT rest (applyT op s)

/-- State reached after `n` consecutive `toggleLike` calls. -/
def iterLike : Nat → PairState → PairState
  | 0, s => s
  | n + 1, s => iterLike n (toggleLike s).1

/-- One primitive session-scoped mutation issued inside a toggle
transaction: `Like.deleteOne`, `Like.create`, or the single
`Vlog.findByIdAndUpdate` carrying the accumulated `$inc` deltas. -/
inductive Mut where
  | delLikeEdge
  | delDislikeEdge
  | addLikeEdge
  | addDislikeEdge
  | incCounters (dLike dDislike : Int)
deriving Repr, DecidableEq

/-- Effect of one primitive mutation on the pair state. -/
def applyMut : Mut → PairState → PairState
  | Mut.delLikeEdge, s => { s with hasLike := false }
  | Mut.delDislikeEdge, s => { s with hasDislike := false }
  | Mut.addLikeEdge, s => { s with hasLike := true }
  | Mut.addDislikeEdge, s => { s with hasDislike := true }
  | Mut.incCounters dl dd, s =>
      { s with likeCount := s.likeCount + dl,
               dislikeCount := s.dislikeCount + dd }

/-- The mutation sequence `toggleLike` issues inside its transaction, in
source order (vlogService.js lines 98-126): edge deletions/creation
followed by one combined counter update. -/
def likeTxMuts (s : PairState) : List Mut :=
  if s.hasLike then
    [Mut.delLikeEdge, Mut.incCounters (-1) 0]
  else if s.hasDislike then
    [Mut.delDislikeEdge, Mut.addLikeEdge, Mut.incCounters 1 (-1)]
  else
    [Mut.addLikeEdge, Mut.incCounters 1 0]

/-- The mutation sequence `toggleDislike` issues inside its transaction,
in source order (vlogService.js lines 174-202). -/
def dislikeTxMuts (s : PairState) : List Mut :=
  if s.hasDislike then
    [Mut.delDislikeEdge, Mut.incCounters 0 (-1)]
  else if s.hasLike then
    [Mut.delLikeEdge, Mut.addDislikeEdge, Mut.incCounters (-1) 1]
  else
    [Mut.addDislikeEdge, Mut.incCounters 0 1]

/-- Session semantics of the Durable Store transaction: mutations apply
to a draft invisible to other readers; the final commit step installs
the draft; a failure at any step (index `idx` counts the remaining
steps, with the commit as the last step) discards the draft and leaves
the base state untouched, as `session.abortTransaction` does. -/
def txGo (base draft : PairState) (muts : List Mut) (failAt : Option Nat) :
    PairState × Bool :=
  match muts with
  | [] =>
      if failAt = some 0 then (base, false) else (draft, true)
  | m :: rest =>
      if failAt = some 0 then (base, false)
      else txGo base (applyMut m draft) rest (failAt.map (· - 1))

/-- Translation of `toggleLike` with an explicit failure injection point:
`failAt = some k` makes the k-th step of the transaction body throw
(steps 0 and 1 are the two `Like.findOne` reads, then the mutations of
`likeTxMuts`, then `commitTransaction`); indices past the commit mean no
step failed.  On a throw the `catch` block aborts the transaction and
rethrows, so the visible state is the original one. -/
def toggleLikeTx (s : PairState) (failAt : Option Nat) :
    PairState × Except Unit ToggleResult :=
  if failAt = some 0 ∨ failAt = some 1 then (s, Except.error ())
  else
    match txGo s s (likeTxMuts s) (failAt.map (· - 2)) with
    | (s2, true) => (s2, Except.ok (toggleLike s).2)
    | (s2, false) => (s2, Except.error ())

/-- Translation of `toggleDislike` with the same failure injection. -/
def toggleDislikeTx (s : PairState) (failAt : Option Nat) :
    PairState × Except Unit ToggleResult :=
  if failAt = some 0 ∨ failAt = some 1 then (s, Except.error ())
  else
    match txGo s s (dislikeTxMuts s) (failAt.map (· - 2)) with
    | (s2, true) => (s2, Except.ok (toggleDislike s).2)
    | (s2, false) => (s2, Except.error ())

end Reaction

namespace ViewRec

/-- The `VIEW_TTL_SECONDS` configuration read in `recordView`
(vlogService.js line 274): `parseInt(process.env.VIEW_TTL_SECONDS) ||
86400`, so an unset or zero (falsy) value falls back to 86400 seconds. -/
def viewTtlSeconds : Option Nat → Nat
  | none => 86400
  | some n => if n = 0 then 86400 else n

/-- State touched by `recordView` for one `(vlog, viewer)` pair: the
absolute expiry instant of the Redis dedup key `view:vlogId:viewerId`
if the key is set, and the vlog's `views` counter. -/
structure ViewState where
  keyExpiry : Option Nat
  views : Int
deriving Repr, DecidableEq

/-- Result object of `recordView`: `counted` is
`{incremented: true, views}`, `duplicate` is
`{incremented: false, views}`, and `degraded` is
`{incremented: true, views, degraded: true}` from the catch-block
fallback. -/
inductive ViewResult where
  | counted (views : Int)
  | duplicate (views : Int)
  | degraded (views : Int)
deriving Repr, DecidableEq

/-- Availability of the dependencies during one `recordView` call:
whether the Redis `set` call connects (as opposed to throwing a
connection error), whether the first database call inside the try block
succeeds, and whether the database call inside the catch block
succeeds. -/
structure ViewEnv where
  redisUp : Bool
  dbTryOk : Bool
  dbCatchOk : Bool
deriving Repr, DecidableEq

/-- Translation of `recordView` (vlogService.js lines 272-322) for an
existing vlog.  `redis.set(key, 1, NX, EX, ttl)` succeeds iff no
unexpired key is present, setting the expiry to `now + ttl`; on success
the try block increments `views` via `findByIdAndUpdate`, otherwise it
re-reads `views` via `findById`.  The catch block covers the whole try
block: any throw, from the Redis call or from either database call,
lands in the fallback, which increments `views` unconditionally and
returns the `degraded` result; a throw from the fallback increment
itself propagates as an error. -/
def recordView (env : ViewEnv) (now : Nat) (ttlEnv : Option Nat)
    (s : ViewState) : ViewState × Except Unit ViewResult :=
  let ttl := viewTtlSeconds ttlEnv
  let degradedPath : ViewState → ViewState × Except Unit ViewResult :=
    fun st =>
      if env.dbCatchOk then
        ({ st with views := st.views + 1 },
          Except.ok (ViewResult.degraded (st.views + 1)))
      else (st, Except.error ())
  if env.redisUp then
    let keyLive : Bool :=
      match s.keyExpiry with
      | some e => decide (now < e)
      | none => false
    if keyLive then
      if env.dbTryOk then (s, Except.ok (ViewResult.duplicate s.views))
      else degradedPath s
    else
      let s1 : ViewState := { s with keyExpiry := some (now + ttl) }
      if env.dbTryOk then
        ({ s1 with views := s1.views + 1 },
          Except.ok (ViewResult.counted (s1.views + 1)))
      else degradedPath s1
  else degradedPath s

/-- Environment in which Redis connects and every database call
succeeds. -/
def healthy : ViewEnv := ⟨true, true, true⟩

end ViewRec

namespace CommentSvc

/-- One `Comment` document: its id, the vlog it belongs to, its author
(the `user` field), and its text. -/
structure Comment where
  id : Nat
  vlog : Nat
  user : Nat
  text : String
deriving Repr, DecidableEq

/-- The vlog document addressed by the `vlogId` argument: its `author`
and its `commentCount` field. -/
structure VlogDoc where
  author : Nat
  commentCount : Int
deriving Repr, DecidableEq

/-- State touched by `deleteComment` for one vlog id: the vlog document
if it exists (`Vlog.findById` returns `null` otherwise) and the comment
collection. -/
structure CState where
  vlog : Option VlogDoc
  comments : List Comment
deriving Repr, DecidableEq

/-- Possible failures of `deleteComment`: the typed 404
(`Comment not found`) and 403 (`Not authorized`) `ErrorResponse`s, and
the untyped `TypeError` raised when the authorization check reads
`vlog.author` on a `null` vlog. -/
inductive DelErr where
  | commentNotFound
  | notAuthorized
  | typeError
deriving Repr, DecidableEq

/-- Translation of `deleteComment` (vlogService.js lines 249-270).  The
lookup order and the short-circuit of the authorization condition
`comment.user !== userId && vlog.author !== userId && !isAdmin` are kept:
when the caller is the comment's author the second conjunct is never
evaluated, so a missing vlog is not dereferenced.  On success the
comment row is deleted (`Comment.deleteOne`, removing the first match)
and the counter updated via `findByIdAndUpdate` with
`$inc: -1` and the `$max: 0` floor clamp: following the Durable Store
adapter interface the patch applies the delta and then the floor, i.e.
`commentCount := max (commentCount - 1) 0`; on a missing vlog id the
update is a no-op. -/
def deleteComment (st : CState) (commentId userId : Nat) (isAdmin : Bool) :
    CState × Except DelErr Unit :=
  let doDelete : CState × Except DelErr Unit :=
    ({ vlog := st.vlog.map
          (fun v => { v with commentCount := max (v.commentCount - 1) 0 }),
       comments := st.comments.eraseP (fun c => c.id == commentId) },
      Except.ok ())
  match st.comments.find? (fun c => c.id == commentId) with
  | none => (st, Except.error DelErr.commentNotFound)
  | some comment =>
    if comment.user = userId then doDelete
    else
      match st.vlog with
      | none => (st, Except.error DelErr.typeError)
      | some v =>
        if v.author = userId then doDelete
        else if isAdmin then doDelete
        else (st, Except.error DelErr.notAuthorized)

end CommentSvc

namespace Engine

/-- Global state of one content item for the whole Engine: the vlog's
author, the sets of users holding a like (resp. dislike) edge, the
comment rows as `(commentId, commentAuthor)` pairs, the per-viewer dedup
keys as `(viewerId, expiry)` pairs, and the four denormalized
counters. -/
structure EState where
  author : Nat
  likes : Finset Nat
  dislikes : Finset Nat
  comments : List (Nat × Nat)
  keys : List (Nat × Nat)
  likeCount : Int
  dislikeCount : Int
  commentCount : Int
  viewCount : Int

/-- One Engine operation on the content item, with the arguments that
determine its effect: toggles carry the acting user; `addC` carries the
new comment's id, author and text; `delC` carries the target comment,
the caller and the admin flag; `view` carries the viewer, the current
time, the TTL and whether Redis is reachable. -/
inductive EOp where
  | tLike (u : Nat)
  | tDislike (u : Nat)
  | addC (cid u : Nat) (text : String)
  | delC (cid u : Nat) (adm : Bool)
  | view (u now ttl : Nat) (redisUp : Bool)

/-- Effect of one successfully completed Engine operation, translated
from vlogService.js; `none` means the call failed (validation error,
missing comment, failed authorization), so it contributes no state
change to a sequence of successful operations.  `tLike` and `tDislike`
follow the toggle algorithm of lines 73-220; `addC` the validation and
increment of lines 222-247; `delC` the authorization and clamped
decrement of lines 249-270; `view` the dedup logic of lines 272-322
(with the unconditional increment when Redis is unreachable). -/
def applyOp : EOp → EState → Option EState
  | EOp.tLike u, s =>
      if u ∈ s.likes then
        some { s with likes := s.likes.erase u,
                      likeCount := s.likeCount - 1 }
      else
        let s1 : EState :=
          if u ∈ s.dislikes then
            { s with dislikes := s.dislikes.erase u,
                     dislikeCount := s.dislikeCount - 1 }
          else s
        some { s1 with likes := insert u s1.likes,
                       likeCount := s1.likeCount + 1 }
  | EOp.tDislike u, s =>
      if u ∈ s.dislikes then
        some { s with dislikes := s.dislikes.erase u,
                      dislikeCount := s.dislikeCount - 1 }
      else
        let s1 : EState :=
          if u ∈ s.likes then
            { s with likes := s.likes.erase u,
                     likeCount := s.likeCount - 1 }
          else s
        some { s1 with dislikes := insert u s1.dislikes,
                       dislikeCount := s1.dislikeCount + 1 }
  | EOp.addC cid u text, s =>
      if text.trim.isEmpty then none
      else if 500 < text.length then none
      else
        some { s with comments := (cid, u) :: s.comments,
                      commentCount := s.commentCount + 1 }
  | EOp.delC cid u adm, s =>
      match s.comments.find? (fun p => p.1 == cid) with
      | none => none
      | some p =>
          if p.2 = u ∨ s.author = u ∨ adm = true then
            some { s with
                    comments := s.comments.eraseP (fun q => q.1 == cid),
                    commentCount := max (s.commentCount - 1) 0 }
          else none
  | EOp.view u now ttl redisUp, s =>
      if redisUp then
        match s.keys.find? (fun p => p.1 == u) with
        | some p =>
            if now < p.2 then some s
            else
              some { s with
                      keys := (u, now + ttl) ::
                        s.keys.eraseP (fun q => q.1 == u),
                      viewCount := s.viewCount + 1 }
        | none =>
            some { s with keys := (u, now + ttl) :: s.keys,
                          viewCount := s.viewCount + 1 }
      else some { s with viewCount := s.viewCount + 1 }

/-- State after a sequence of Engine operations, all of which completed
successfully. -/
def runOps : List EOp → EState → Option EState
  | [], s => some s
  | op :: rest, s =>
      match applyOp op s with
      | none => none
      | some s2 => runOps rest s2

/-- The consistency invariant the store is expected to maintain: the
like and dislike counters equal the number of corresponding edges, and
the comment and view counters are non-negative. -/
def counterInv (s : EState) : Prop :=
  s.likeCount = s.likes.card ∧ s.dislikeCount = s.dislikes.card ∧
  0 ≤ s.commentCount ∧ 0 ≤ s.viewCount

/-- An initial state exhibiting counter drift: user 7 holds a like edge
while `likeCount` is 0.  All four counters are non-negative. -/
def drifted : EState :=
  { author := 0, likes := {7}, dislikes := ∅, comments := [], keys := [],
    likeCount := 0, dislikeCount := 0, commentCount := 0, viewCount := 0 }

/-- An empty initial state: no edges, no comments, no keys, all counters
zero. -/
def emptyState : EState :=
  { author := 0, likes := ∅, dislikes := ∅, comments := [], keys := [],
    likeCount := 0, dislikeCount := 0, commentCount := 0, viewCount := 0 }

end Engine

end Capsule

open Capsule.Reaction
open Capsule.ViewRec
open Capsule.CommentSvc

/-- Helper for claim C1: no state produced by a toggle call ever has both
edges present, regardless of the state the call started from. -/
theorem applyT_not_both (op : TOp) (s : PairState) :
    ¬((applyT op s).hasLike = true ∧ (applyT op s).hasDislike = true) := by
  cases op <;>
    simp only [applyT, toggleLike, toggleDislike] <;>
    rcases hL : s.hasLike <;> rcases hD : s.hasDislike <;>
    simp [hL, hD]

/-- Auxiliary invariant: if a state does not hold both edges, no
sequence of toggle calls leads to a state holding both. -/
theorem toggle_runT_aux (ops : List TOp) (s : PairState)
    (h : ¬(s.hasLike = true ∧ s.hasDislike = true)) :
    ¬((runT ops s).hasLike = true ∧ (runT ops s).hasDislike = true) := by
  induction ops generalizing s with
  | nil => simpa [runT] using h
  | cons op rest ih =>
    simp only [runT]
    exact ih (applyT op s) (applyT_not_both op s)

/-- Claim C1: starting from a state with no reaction edges for the
`(vlog, user)` pair, after any sequence of `toggleLike` / `toggleDislike`
calls by that user on that vlog, the pair never holds both a like edge
and a dislike edge simultaneously. -/
theorem toggle_mutual_exclusion (ops : List TOp) (s : PairState)
    (hL : s.hasLike = false) (hD : s.hasDislike = false) :
    ¬((runT ops s).hasLike = true ∧ (runT ops s).hasDislike = true) :=
  toggle_runT_aux ops s (by simp [hL, hD])

/-- Concrete instance of claim C1: a like call followed by a dislike call
from the neutral state does not leave both edges present. -/
theorem toggle_mutual_exclusion_witness :
    ¬((runT [TOp.like, TOp.dislike] ⟨false, false, 0, 0⟩).hasLike = true ∧
      (runT [TOp.like, TOp.dislike] ⟨false, false, 0, 0⟩).hasDislike = true) :=
  toggle_mutual_exclusion [TOp.like, TOp.dislike] ⟨false, false, 0, 0⟩ rfl rfl

/-- Claim C2: the case analysis performed by `toggleLike`, its symmetric
counterpart in `toggleDislike`, the fact that the returned object reflects
the final (post-commit) counters and reaction state, and the concrete
scenario `likeCount=5, dislikeCount=2`, no reaction: `toggleDislike`
yields `{likeCount:5, dislikeCount:3, isLiked:false, isDisliked:true}`,
then `toggleLike` yields
`{likeCount:6, dislikeCount:2, isLiked:true, isDisliked:false}`. -/
theorem toggle_case_behaviour (s : PairState) :
    (s.hasLike = true →
      toggleLike s =
        ({ s with hasLike := false, likeCount := s.likeCount - 1 },
          ⟨s.likeCount - 1, s.dislikeCount, false, false⟩)) ∧
    (s.hasLike = false → s.hasDislike = true →
      toggleLike s =
        (⟨true, false, s.likeCount + 1, s.dislikeCount - 1⟩,
          ⟨s.likeCount + 1, s.dislikeCount - 1, true, false⟩)) ∧
    (s.hasLike = false → s.hasDislike = false →
      toggleLike s =
        (⟨true, false, s.likeCount + 1, s.dislikeCount⟩,
          ⟨s.likeCount + 1, s.dislikeCount, true, false⟩)) ∧
    (s.hasDislike = true →
      toggleDislike s =
        ({ s with hasDislike := false, dislikeCount := s.dislikeCount - 1 },
          ⟨s.likeCount, s.dislikeCount - 1, false, false⟩)) ∧
    (s.hasDislike = false → s.hasLike = true →
      toggleDislike s =
        (⟨false, true, s.likeCount - 1, s.dislikeCount + 1⟩,
          ⟨s.likeCount - 1, s.dislikeCount + 1, false, true⟩)) ∧
    (s.hasDislike = false → s.hasLike = false →
      toggleDislike s =
        (⟨false, true, s.likeCount, s.dislikeCount + 1⟩,
          ⟨s.likeCount, s.dislikeCount + 1, false, true⟩)) ∧
    (¬(s.hasLike = true ∧ s.hasDislike = true) →
      (toggleLike s).2.likeCount = (toggleLike s).1.likeCount ∧
      (toggleLike s).2.dislikeCount = (toggleLike s).1.dislikeCount ∧
      (toggleLike s).2.isLiked = (toggleLike s).1.hasLike ∧
      (toggleLike s).2.isDisliked = (toggleLike s).1.hasDislike) ∧
    (¬(s.hasLike = true ∧ s.hasDislike = true) →
      (toggleDislike s).2.likeCount = (toggleDislike s).1.likeCount ∧
      (toggleDislike s).2.dislikeCount = (toggleDislike s).1.dislikeCount ∧
      (toggleDislike s).2.isLiked = (toggleDislike s).1.hasLike ∧
      (toggleDislike s).2.isDisliked = (toggleDislike s).1.hasDislike) ∧
    toggleDislike ⟨false, false, 5, 2⟩ =
      (⟨false, true, 5, 3⟩, ⟨5, 3, false, true⟩) ∧
    toggleLike ⟨false, true, 5, 3⟩ =
      (⟨true, false, 6, 2⟩, ⟨6, 2, true, false⟩) := by
  refine ⟨?_, ?_, ?_, ?_, ?_, ?_, ?_, ?_, by decide, by decide⟩ <;>
    first
      | (intro h1 h2; rcases s with ⟨a, b, l, d⟩; subst h1; subst h2;
          simp [toggleLike, toggleDislike])
      | (intro h1; rcases s with ⟨a, b, l, d⟩; subst h1;
          simp [toggleLike, toggleDislike])
      | (rcases s with ⟨a, b, l, d⟩; rcases a <;> rcases b <;>
          simp [toggleLike, toggleDislike])

/-- Concrete instance of claim C2: untoggling an existing like deletes
the edge and decrements `likeCount`. -/
theorem toggle_case_behaviour_witness :
    toggleLike ⟨true, false, 3, 1⟩ = (⟨false, false, 2, 1⟩, ⟨2, 1, false, false⟩) :=
  (toggle_case_behaviour ⟨true, false, 3, 1⟩).1 rfl

/-- A transaction either aborts to the base state or commits the full
fold of its mutation list over the draft. -/
theorem txGo_abort_or_commit (muts : List Mut) (base draft : PairState)
    (failAt : Option Nat) :
    txGo base draft muts failAt = (base, false) ∨
    txGo base draft muts failAt =
      (muts.foldl (fun st m => applyMut m st) draft, true) := by
  induction muts generalizing draft failAt with
  | nil =>
    by_cases h : failAt = some 0 <;> simp [txGo, h]
  | cons m rest ih =>
    by_cases h : failAt = some 0
    · left; simp [txGo, h]
    · simpa [txGo, h, List.foldl] using
        ih (applyMut m draft) (failAt.map (· - 1))

/-- Folding the mutation list of `toggleLike` reproduces exactly the
state `toggleLike` commits. -/
theorem likeTxMuts_foldl (s : PairState) :
    (likeTxMuts s).foldl (fun st m => applyMut m st) s = (toggleLike s).1 := by
  rcases s with ⟨a, b, l, d⟩
  rcases a <;> rcases b <;>
    simp [likeTxMuts, toggleLike, applyMut, sub_eq_add_neg]

/-- Folding the mutation list of `toggleDislike` reproduces exactly the
state `toggleDislike` commits. -/
theorem dislikeTxMuts_foldl (s : PairState) :
    (dislikeTxMuts s).foldl (fun st m => applyMut m st) s = (toggleDislike s).1 := by
  rcases s with ⟨a, b, l, d⟩
  rcases a <;> rcases b <;>
    simp [dislikeTxMuts, toggleDislike, applyMut, sub_eq_add_neg]

/-- Claim C6: whichever step of a `toggleLike` or `toggleDislike`
transaction fails, the visible outcome is all-or-nothing: either the
error propagates with the state exactly as before the call, or every
mutation (edge change and counter change together) is committed and the
normal result returned.  No state with only one of the two mutations
applied is reachable. -/
theorem toggle_tx_atomic (s : PairState) (failAt : Option Nat) :
    (toggleLikeTx s failAt = (s, Except.error ()) ∨
      toggleLikeTx s failAt = ((toggleLike s).1, Except.ok (toggleLike s).2)) ∧
    (toggleDislikeTx s failAt = (s, Except.error ()) ∨
      toggleDislikeTx s failAt =
        ((toggleDislike s).1, Except.ok (toggleDislike s).2)) := by
  constructor
  · by_cases h : failAt = some 0 ∨ failAt = some 1
    · left; simp [toggleLikeTx, h]
    · rcases txGo_abort_or_commit (likeTxMuts s) s s (failAt.map (· - 2)) with
        hgo | hgo
      · left; simp [toggleLikeTx, h, hgo]
      · right; simp [toggleLikeTx, h, hgo, likeTxMuts_foldl]
  · by_cases h : failAt = some 0 ∨ failAt = some 1
    · left; simp [toggleDislikeTx, h]
    · rcases txGo_abort_or_commit (dislikeTxMuts s) s s (failAt.map (· - 2)) with
        hgo | hgo
      · left; simp [toggleDislikeTx, h, hgo]
      · right; simp [toggleDislikeTx, h, hgo, dislikeTxMuts_foldl]

/-- Counterexample to claim C7 as stated: the claim quantifies over every
sequence of `toggleLike` calls without restricting the starting state.
From a state where the user already holds a like edge (`likeCount = 1`),
two calls (an even number) put the like edge back: the user does not end
in the neutral state. -/
theorem toggle_like_parity_cex :
    (iterLike 2 ⟨true, false, 1, 0⟩).hasLike = true ∧
    ¬((iterLike 2 ⟨true, false, 1, 0⟩).hasLike = false ∧
      (iterLike 2 ⟨true, false, 1, 0⟩).hasDislike = false) := by
  decide

/-- Two consecutive `toggleLike` calls from a neutral state cancel out. -/
theorem iterLike_add_two (n : Nat) (s : PairState)
    (hL : s.hasLike = false) (hD : s.hasDislike = false) :
    iterLike (n + 2) s = iterLike n s := by
  rcases s with ⟨a, b, l, d⟩
  subst hL; subst hD
  show iterLike n (toggleLike (toggleLike ⟨false, false, l, d⟩).1).1 = _
  have h2 : (toggleLike (toggleLike ⟨false, false, l, d⟩).1).1 =
      ⟨false, false, l, d⟩ := by
    simp [toggleLike]
  rw [h2]

/-- Parity behaviour of `iterLike` from a neutral state, split into even
and odd multiples. -/
theorem iterLike_parity_aux (s : PairState)
    (hL : s.hasLike = false) (hD : s.hasDislike = false) (k : Nat) :
    iterLike (2 * k) s = s ∧
    iterLike (2 * k + 1) s =
      ⟨true, false, s.likeCount + 1, s.dislikeCount⟩ := by
  induction k with
  | zero =>
    constructor
    · rfl
    · rcases s with ⟨a, b, l, d⟩
      subst hL; subst hD
      simp [iterLike, toggleLike]
  | succ k ih =>
    have e1 : 2 * (k + 1) = 2 * k + 2 := by omega
    have e2 : 2 * (k + 1) + 1 = (2 * k + 1) + 2 := by omega
    constructor
    · rw [e1, iterLike_add_two (2 * k) s hL hD]; exact ih.1
    · rw [e2, iterLike_add_two (2 * k + 1) s hL hD]; exact ih.2

/-- Claim C7 (amended): for a user starting in the neutral state (no like
or dislike edge on the content), after `n` consecutive `toggleLike`
calls: if `n` is odd the user holds a like edge, no dislike edge,
`likeCount` is its initial value plus 1 and `dislikeCount` unchanged; if
`n` is even the state is exactly the initial one — a 2-cycle
like, neutral, like. -/
theorem toggle_like_parity (n : Nat) (s : PairState)
    (hL : s.hasLike = false) (hD : s.hasDislike = false) :
    (n % 2 = 1 →
      iterLike n s = ⟨true, false, s.likeCount + 1, s.dislikeCount⟩) ∧
    (n % 2 = 0 → iterLike n s = s) := by
  constructor
  · intro hodd
    have hn : n = 2 * (n / 2) + 1 := by omega
    rw [hn]
    exact (iterLike_parity_aux s hL hD (n / 2)).2
  · intro heven
    have hn : n = 2 * (n / 2) := by omega
    rw [hn]
    exact (iterLike_parity_aux s hL hD (n / 2)).1

/-- Concrete instance of amended claim C7: three `toggleLike` calls from
the neutral state leave a like edge and `likeCount` bumped by one. -/
theorem toggle_like_parity_witness :
    iterLike 3 ⟨false, false, 4, 9⟩ = ⟨true, false, 4 + 1, 9⟩ :=
  (toggle_like_parity 3 ⟨false, false, 4, 9⟩ rfl rfl).1 rfl

/-- Claim C5: with the Fast Dedup Store reachable and the database
healthy, a first `recordView` for the pair sets the dedup key with the
configured TTL (default 86400 seconds) and increments `views`; a second
call strictly inside the TTL window is a duplicate, changing nothing and
reporting the current count; a call at or after the expiry instant
increments again and re-arms the key. -/
theorem recordView_dedup (t1 t2 : Nat) (ttlEnv : Option Nat) (v : Int) :
    recordView healthy t1 ttlEnv ⟨none, v⟩ =
      (⟨some (t1 + viewTtlSeconds ttlEnv), v + 1⟩,
        Except.ok (ViewResult.counted (v + 1))) ∧
    (t2 < t1 + viewTtlSeconds ttlEnv →
      recordView healthy t2 ttlEnv ⟨some (t1 + viewTtlSeconds ttlEnv), v + 1⟩ =
        (⟨some (t1 + viewTtlSeconds ttlEnv), v + 1⟩,
          Except.ok (ViewResult.duplicate (v + 1)))) ∧
    (t1 + viewTtlSeconds ttlEnv ≤ t2 →
      recordView healthy t2 ttlEnv ⟨some (t1 + viewTtlSeconds ttlEnv), v + 1⟩ =
        (⟨some (t2 + viewTtlSeconds ttlEnv), v + 1 + 1⟩,
          Except.ok (ViewResult.counted (v + 1 + 1)))) ∧
    viewTtlSeconds none = 86400 := by
  refine ⟨?_, ?_, ?_, rfl⟩
  · simp [recordView, healthy]
  · intro hwin
    simp [recordView, healthy, hwin]
  · intro hexp
    simp [recordView, healthy, Nat.not_lt_of_le hexp]

/-- Concrete instance of claim C5: a repeat view 100 seconds into the
default 86400-second window is reported as a duplicate and does not
change the counter. -/
theorem recordView_dedup_witness :
    recordView healthy 100 none ⟨some 86400, 6⟩ =
      (⟨some 86400, 6⟩, Except.ok (ViewResult.duplicate 6)) := by
  exact (recordView_dedup 0 100 none 5).2.1 (by decide)

/-- Claim C3 is contradicted by the code: the catch block of
`recordView` wraps the whole try block, so a database failure also lands
in the degraded fallback.  First conjunct: with every dependency healthy
and the dedup key already present, the call is a plain duplicate (no
degraded flag), as the claim says.  Second conjunct, the divergence: with
Redis reachable and the key already present, a throw from the first
database call with a successful catch-block increment returns
`{incremented: true, degraded: true}` and bumps `views` — the degraded
path taken for a database failure, not a fast-store outage, on a
duplicate view.  Third conjunct: a genuine Redis connection error also
degrades, the documented case. -/
theorem recordView_degraded_paths :
    recordView ⟨true, true, true⟩ 0 none ⟨some 100, 7⟩ =
      (⟨some 100, 7⟩, Except.ok (ViewResult.duplicate 7)) ∧
    recordView ⟨true, false, true⟩ 0 none ⟨some 100, 7⟩ =
      (⟨some 100, 8⟩, Except.ok (ViewResult.degraded 8)) ∧
    recordView ⟨false, true, true⟩ 0 none ⟨some 100, 7⟩ =
      (⟨some 100, 8⟩, Except.ok (ViewResult.degraded 8)) :=
  ⟨rfl, rfl, rfl⟩

/-- When comment ids are unique, erasing the comment with a given id
leaves no comment with that id behind. -/
theorem find?_eraseP_id_none (l : List Comment) (cid : Nat)
    (hnd : (l.map Comment.id).Nodup) :
    (l.eraseP (fun c => c.id == cid)).find? (fun c => c.id == cid) = none := by
  induction l with
  | nil => rfl
  | cons c rest ih =>
    simp only [List.map_cons, List.nodup_cons] at hnd
    by_cases h : c.id = cid
    · rw [List.eraseP_cons_of_pos (by simpa using h)]
      rw [List.find?_eq_none]
      intro a ha
      simp only [beq_iff_eq]
      intro hac
      exact hnd.1 (by rw [h, ← hac]; exact List.mem_map_of_mem _ ha)
    · rw [List.eraseP_cons_of_neg (by simpa using h)]
      rw [List.find?_cons_of_neg _ (by simpa using h)]
      exact ih hnd.2

/-- Claim C4: a successful `deleteComment` (existing comment, existing
vlog, authorized caller, comment ids unique) removes the comment row and
replaces `commentCount` with `max (commentCount - 1) 0`: no comment with
the deleted id remains, the new count is never negative, a zero count
stays zero, and a positive count drops by exactly one. -/
theorem deleteComment_clamped (st : CState) (cid uid : Nat) (adm : Bool)
    (c : Comment) (v : VlogDoc)
    (hc : st.comments.find? (fun x => x.id == cid) = some c)
    (hv : st.vlog = some v)
    (hauth : c.user = uid ∨ v.author = uid ∨ adm = true)
    (hnd : (st.comments.map Comment.id).Nodup) :
    deleteComment st cid uid adm =
      ({ vlog := some ⟨v.author, max (v.commentCount - 1) 0⟩,
         comments := st.comments.eraseP (fun x => x.id == cid) },
        Except.ok ()) ∧
    (st.comments.eraseP (fun x => x.id == cid)).find?
        (fun x => x.id == cid) = none ∧
    0 ≤ max (v.commentCount - 1) 0 ∧
    (v.commentCount = 0 → max (v.commentCount - 1) 0 = 0) ∧
    (0 < v.commentCount →
      max (v.commentCount - 1) 0 = v.commentCount - 1) := by
  refine ⟨?_, find?_eraseP_id_none st.comments cid hnd, le_max_right _ _,
    ?_, ?_⟩
  · simp only [deleteComment, hc, hv]
    rcases hauth with h | h | h
    · simp [h]
    · by_cases h1 : c.user = uid <;> simp [h1, h]
    · by_cases h1 : c.user = uid
      · simp [h1]
      · by_cases h2 : v.author = uid <;> simp [h1, h2, h]
  · intro h0; rw [h0]; simp
  · intro hpos; rw [max_eq_left (by omega)]

/-- Concrete instance of claim C4: the content author deletes another
user's comment on a vlog whose `commentCount` is already 0; the count
stays 0 instead of going negative, and the row is gone. -/
theorem deleteComment_clamped_witness :
    deleteComment ⟨some ⟨10, 0⟩, [⟨1, 5, 20, "t"⟩]⟩ 1 10 false =
      (⟨some ⟨10, 0⟩, []⟩, Except.ok ()) := by
  have h := deleteComment_clamped ⟨some ⟨10, 0⟩, [⟨1, 5, 20, "t"⟩]⟩ 1 10 false
    ⟨1, 5, 20, "t"⟩ ⟨10, 0⟩ (by decide) rfl (Or.inr (Or.inl rfl)) (by decide)
  exact h.1

/-- Claim C9: on an existing comment and existing vlog, a caller who is
neither the comment's author nor the vlog's author nor an admin gets the
403 `Not authorized` error with the state exactly unchanged; conversely
the call succeeds only for one of those three callers. -/
theorem deleteComment_authz (st : CState) (cid uid : Nat) (adm : Bool)
    (c : Comment) (v : VlogDoc)
    (hc : st.comments.find? (fun x => x.id == cid) = some c)
    (hv : st.vlog = some v) :
    (c.user ≠ uid → v.author ≠ uid → adm = false →
      deleteComment st cid uid adm =
        (st, Except.error DelErr.notAuthorized)) ∧
    ((deleteComment st cid uid adm).2 = Except.ok () →
      c.user = uid ∨ v.author = uid ∨ adm = true) := by
  constructor
  · intro h1 h2 h3
    simp [deleteComment, hc, hv, h1, h2, h3]
  · intro hok
    by_cases h1 : c.user = uid
    · exact Or.inl h1
    · by_cases h2 : v.author = uid
      · exact Or.inr (Or.inl h2)
      · by_cases h3 : adm = true
        · exact Or.inr (Or.inr h3)
        · simp [deleteComment, hc, hv, h1, h2, h3] at hok

/-- Concrete instance of claim C9: a stranger (not comment author 20,
not vlog author 10, not admin) is rejected with 403 and nothing
changes. -/
theorem deleteComment_authz_witness :
    deleteComment ⟨some ⟨10, 4⟩, [⟨1, 5, 20, "t"⟩]⟩ 1 99 false =
      (⟨some ⟨10, 4⟩, [⟨1, 5, 20, "t"⟩]⟩,
        Except.error DelErr.notAuthorized) :=
  (deleteComment_authz ⟨some ⟨10, 4⟩, [⟨1, 5, 20, "t"⟩]⟩ 1 99 false
    ⟨1, 5, 20, "t"⟩ ⟨10, 4⟩ (by decide) rfl).1 (by decide) (by decide) rfl

/-- Counterexample to claim C10 as stated: when the caller is the
comment's author, the `&&` chain short-circuits before reading
`vlog.author`, so a missing vlog raises nothing — the call succeeds and
deletes the comment row (the counter update on the missing vlog is a
no-op), contradicting the claim that every such call throws before
mutating state. -/
theorem deleteComment_missing_vlog_cex :
    deleteComment ⟨none, [⟨1, 9, 42, "hi"⟩]⟩ 1 42 false =
      (⟨none, []⟩, Except.ok ()) := rfl

/-- Claim C10 (amended): if the comment exists, the vlog does not, and
the caller is not the comment's author, `deleteComment` throws the
untyped `TypeError` from dereferencing the missing vlog — whatever the
admin flag — before deleting the row or touching any counter, leaving
the state unchanged. -/
theorem deleteComment_missing_vlog (st : CState) (cid uid : Nat)
    (adm : Bool) (c : Comment)
    (hc : st.comments.find? (fun x => x.id == cid) = some c)
    (hv : st.vlog = none)
    (hne : c.user ≠ uid) :
    deleteComment st cid uid adm = (st, Except.error DelErr.typeError) := by
  simp [deleteComment, hc, hv, hne]

/-- Concrete instance of amended claim C10: an admin caller who did not
write the comment still hits the `TypeError` when the vlog is missing,
and the state is untouched. -/
theorem deleteComment_missing_vlog_witness :
    deleteComment ⟨none, [⟨1, 9, 42, "x"⟩]⟩ 1 7 true =
      (⟨none, [⟨1, 9, 42, "x"⟩]⟩, Except.error DelErr.typeError) :=
  deleteComment_missing_vlog ⟨none, [⟨1, 9, 42, "x"⟩]⟩ 1 7 true
    ⟨1, 9, 42, "x"⟩ (by decide) rfl (by decide)

/-- Every successfully completed Engine operation preserves the
counter-edge consistency invariant. -/
theorem applyOp_preserves_counterInv (op : Capsule.Engine.EOp)
    (s s2 : Capsule.Engine.EState)
    (hinv : Capsule.Engine.counterInv s)
    (h : Capsule.Engine.applyOp op s = some s2) :
    Capsule.Engine.counterInv s2 := by
  obtain ⟨h1, h2, h3, h4⟩ := hinv
  cases op with
  | tLike u =>
    by_cases hm : u ∈ s.likes
    · simp only [Capsule.Engine.applyOp, if_pos hm, Option.some.injEq] at h
      subst h
      have hc := Finset.card_erase_of_mem hm
      have hp : 0 < s.likes.card := Finset.card_pos.mpr ⟨u, hm⟩
      exact ⟨by simp only; omega, h2, h3, h4⟩
    · by_cases hd : u ∈ s.dislikes
      · simp only [Capsule.Engine.applyOp, if_neg hm, if_pos hd,
          Option.some.injEq] at h
        subst h
        have hci := Finset.card_insert_of_not_mem hm
        have hcd := Finset.card_erase_of_mem hd
        have hpd : 0 < s.dislikes.card := Finset.card_pos.mpr ⟨u, hd⟩
        exact ⟨by simp only; omega, by simp only; omega, h3, h4⟩
      · simp only [Capsule.Engine.applyOp, if_neg hm, if_neg hd,
          Option.some.injEq] at h
        subst h
        have hci := Finset.card_insert_of_not_mem hm
        exact ⟨by simp only; omega, h2, h3, h4⟩
  | tDislike u =>
    by_cases hm : u ∈ s.dislikes
    · simp only [Capsule.Engine.applyOp, if_pos hm, Option.some.injEq] at h
      subst h
      have hc := Finset.card_erase_of_mem hm
      have hp : 0 < s.dislikes.card := Finset.card_pos.mpr ⟨u, hm⟩
      exact ⟨h1, by simp only; omega, h3, h4⟩
    · by_cases hl : u ∈ s.likes
      · simp only [Capsule.Engine.applyOp, if_neg hm, if_pos hl,
          Option.some.injEq] at h
        subst h
        have hci := Finset.card_insert_of_not_mem hm
        have hcl := Finset.card_erase_of_mem hl
        have hpl : 0 < s.likes.card := Finset.card_pos.mpr ⟨u, hl⟩
        exact ⟨by simp only; omega, by simp only; omega, h3, h4⟩
      · simp only [Capsule.Engine.applyOp, if_neg hm, if_neg hl,
          Option.some.injEq] at h
        subst h
        have hci := Finset.card_insert_of_not_mem hm
        exact ⟨h1, by simp only; omega, h3, h4⟩
  | addC cid u text =>
    by_cases he : text.trim.isEmpty
    · simp [Capsule.Engine.applyOp, he] at h
    · by_cases hlen : 500 < text.length
      · simp [Capsule.Engine.applyOp, he, hlen] at h
      · simp only [Capsule.Engine.applyOp, if_neg he, if_neg hlen,
          Option.some.injEq] at h
        subst h
        exact ⟨h1, h2, by simp only; omega, h4⟩
  | delC cid u adm =>
    rcases hf : s.comments.find? (fun p => p.1 == cid) with _ | p
    · simp [Capsule.Engine.applyOp, hf] at h
    · by_cases ha : p.2 = u ∨ s.author = u ∨ adm = true
      · simp only [Capsule.Engine.applyOp, hf, if_pos ha,
          Option.some.injEq] at h
        subst h
        exact ⟨h1, h2, by simp only; exact le_max_right _ _, h4⟩
      · simp [Capsule.Engine.applyOp, hf, ha] at h
  | view u now ttl redisUp =>
    rcases redisUp with _ | _
    · simp [Capsule.Engine.applyOp] at h
      subst h
      exact ⟨h1, h2, h3, by simp only; omega⟩
    · rcases hf : s.keys.find? (fun p => p.1 == u) with _ | p
      · simp [Capsule.Engine.applyOp, hf] at h
        subst h
        exact ⟨h1, h2, h3, by simp only; omega⟩
      · by_cases ht : now < p.2
        · simp [Capsule.Engine.applyOp, hf, ht] at h
          subst h
          exact ⟨h1, h2, h3, h4⟩
        · simp [Capsule.Engine.applyOp, hf, ht] at h
          subst h
          exact ⟨h1, h2, h3, by simp only; omega⟩

/-- A sequence of successfully completed Engine operations preserves the
counter-edge consistency invariant. -/
theorem runOps_preserves_counterInv (ops : List Capsule.Engine.EOp)
    (s sf : Capsule.Engine.EState)
    (hinv : Capsule.Engine.counterInv s)
    (h : Capsule.Engine.runOps ops s = some sf) :
    Capsule.Engine.counterInv sf := by
  induction ops generalizing s with
  | nil =>
    simp only [Capsule.Engine.runOps, Option.some.injEq] at h
    subst h; exact hinv
  | cons op rest ih =>
    simp only [Capsule.Engine.runOps] at h
    rcases ha : Capsule.Engine.applyOp op s with _ | s2
    · rw [ha] at h; exact absurd h (by simp)
    · rw [ha] at h
      exact ih s2 (applyOp_preserves_counterInv op s s2 hinv ha) h

/-- Counterexample to claim C8 as stated: the claim asks only that the
initial counters be non-negative.  `drifted` satisfies that (all four
counters are 0), yet user 7 already holds a like edge the counter does
not account for; one successfully completed `toggleLike` by user 7
deletes the edge and applies `$inc: -1`, which is unclamped, driving
`likeCount` to -1. -/
theorem engine_counters_cex :
    0 ≤ Capsule.Engine.drifted.likeCount ∧
    0 ≤ Capsule.Engine.drifted.dislikeCount ∧
    0 ≤ Capsule.Engine.drifted.commentCount ∧
    0 ≤ Capsule.Engine.drifted.viewCount ∧
    Option.map Capsule.Engine.EState.likeCount
      (Capsule.Engine.runOps [Capsule.Engine.EOp.tLike 7]
        Capsule.Engine.drifted) = some (-1) := by
  refine ⟨by decide, by decide, by decide, by decide, ?_⟩
  rfl

/-- Claim C8 (amended): in every state reachable via successfully
completed Engine operations from an initial state whose counters are
non-negative and whose like and dislike counters agree with the actual
edge sets, all four counters are non-negative. -/
theorem engine_counters_nonneg (ops : List Capsule.Engine.EOp)
    (s sf : Capsule.Engine.EState)
    (hinv : Capsule.Engine.counterInv s)
    (h : Capsule.Engine.runOps ops s = some sf) :
    0 ≤ sf.likeCount ∧ 0 ≤ sf.dislikeCount ∧
    0 ≤ sf.commentCount ∧ 0 ≤ sf.viewCount := by
  obtain ⟨h1, h2, h3, h4⟩ := runOps_preserves_counterInv ops s sf hinv h
  refine ⟨?_, ?_, h3, h4⟩
  · rw [h1]; exact Int.ofNat_nonneg _
  · rw [h2]; exact Int.ofNat_nonneg _

/-- Concrete instance of amended claim C8: from the empty state, which
satisfies the consistency invariant, the empty sequence of operations
leaves all counters non-negative. -/
theorem engine_counters_nonneg_witness :
    0 ≤ Capsule.Engine.emptyState.likeCount ∧
    0 ≤ Capsule.Engine.emptyState.dislikeCount ∧
    0 ≤ Capsule.Engine.emptyState.commentCount ∧
    0 ≤ Capsule.Engine.emptyState.viewCount :=
  engine_counters_nonneg [] Capsule.Engine.emptyState
    Capsule.Engine.emptyState ⟨rfl, rfl, by decide, by decide⟩ rfl
